import Mathlib

/-!
Verification development for `vkcapture-show.py`, the receiving half of the
obs-vkcapture frame-sharing protocol.  The Python source is shallowly embedded
below: the fixed binary codec becomes pure functions on byte lists, the
loop-scoped mutable session variables become an explicit `ViewerState`
record, and every externally observable resource operation (closing the peer
socket, unmapping the shared buffer, closing a file descriptor, sending the
handshake, mapping a new descriptor, the DMA sync bracket, the pixel read)
is recorded as an `Effect` emitted by the corresponding step function.
Machine integers from the wire are modelled as `Nat`/`Int` with explicit
reduction modulo 2^32 / 2^64 where the struct formats dictate widths.
-/

set_option maxHeartbeats 1000000
set_option maxRecDepth 100000

namespace VkCapture

/-- Wire constant: `CTRL` handshake struct format is 4 unsigned bytes, 16
raw bytes, 12 pad bytes (32 bytes total, little-endian, no alignment). -/
def CTRL_SIZE : Nat := 32

/-- Wire constant `TEX_SIZE = 128`: exact byte length of a surface message. -/
def TEX_SIZE : Nat := 128

/-- Wire constant `TYPE_TEXTURE_DATA = 11`: first byte of a surface message. -/
def TYPE_TEXTURE_DATA : Nat := 11

/-- Constant `DMA_BUF_SYNC_READ = 1`. -/
def DMA_BUF_SYNC_READ : Nat := 1

/-- Constant `DMA_BUF_SYNC_START = 0`. -/
def DMA_BUF_SYNC_START : Nat := 0

/-- Constant `DMA_BUF_SYNC_END = 4`. -/
def DMA_BUF_SYNC_END : Nat := 4

/-- Byte `i` of a received datagram; out-of-range reads as 0 (never reached
on inputs whose length has been checked). -/
def byteAt (data : List Nat) (i : Nat) : Nat := data.getD i 0

/-- Little-endian unsigned 32-bit field starting at `off` (struct code `I`
and the unsigned reading of `i`). -/
def leU32 (data : List Nat) (off : Nat) : Nat :=
  (byteAt data off + 256 * byteAt data (off + 1) + 65536 * byteAt data (off + 2)
    + 16777216 * byteAt data (off + 3)) % 4294967296

/-- Little-endian unsigned 64-bit field starting at `off` (struct code `Q`). -/
def leU64 (data : List Nat) (off : Nat) : Nat :=
  (byteAt data off + 256 * byteAt data (off + 1) + 65536 * byteAt data (off + 2)
    + 16777216 * byteAt data (off + 3) + 4294967296 * byteAt data (off + 4)
    + 1099511627776 * byteAt data (off + 5) + 281474976710656 * byteAt data (off + 6)
    + 72057594037927936 * byteAt data (off + 7)) % 18446744073709551616

/-- Two's-complement signed reading of an unsigned 32-bit value (struct
code `i`). -/
def toI32 (n : Nat) : Int :=
  if n % 4294967296 < 2147483648 then ((n % 4294967296 : Nat) : Int)
  else ((n % 4294967296 : Nat) : Int) - 4294967296

/-- Little-endian signed 32-bit field starting at `off`. -/
def leI32 (data : List Nat) (off : Nat) : Int := toI32 (leU32 data off)

/-- Decoded surface-descriptor message, struct format
`<BBiii4i4iQIBI65x` (128 bytes): type, version, width, height, pixelFormat,
two parallel 4-element i32 arrays, a u64 modifier, u32 drmFormat, u8
planeCount, u32 flags, 65 pad bytes. -/
structure SurfaceDescriptor where
  msgType : Nat
  version : Nat
  width : Int
  height : Int
  pixelFormat : Int
  planeA : List Int
  planeB : List Int
  modifier : Nat
  drmFormat : Nat
  planeCount : Nat
  flags : Nat
deriving DecidableEq

/-- Embedding of the guarded unpack at `vkcapture-show.py:161-163`:
the message is interpreted exactly when `data[0] == TYPE_TEXTURE_DATA` and
`len(data) == TEX_SIZE`; otherwise it is silently skipped (`none`).
Field offsets follow `<BBiii4i4iQIBI65x` with no alignment padding:
width at 2, height at 6, pixelFormat at 10, planeA at 14, planeB at 30,
modifier at 46, drmFormat at 54, planeCount at 58, flags at 59. -/
def decodeSurfaceMessage (data : List Nat) : Option SurfaceDescriptor :=
  match data with
  | [] => none
  | b :: _ =>
    if b = TYPE_TEXTURE_DATA ∧ data.length = TEX_SIZE then
      some
        { msgType := b
          version := byteAt data 1
          width := leI32 data 2
          height := leI32 data 6
          pixelFormat := leI32 data 10
          planeA := [leI32 data 14, leI32 data 18, leI32 data 22, leI32 data 26]
          planeB := [leI32 data 30, leI32 data 34, leI32 data 38, leI32 data 42]
          modifier := leU64 data 46
          drmFormat := leU32 data 54
          planeCount := byteAt data 58
          flags := leU32 data 59 }
    else none

/-- One unsigned byte of a packed struct (struct code `B`). -/
def packU8 (n : Nat) : List Nat := [n % 256]

/-- Embedding of `struct.pack(CTRL_FMT, 1, 0, 1, 1, b'\x5c0'*16)` at
`vkcapture-show.py:142`: format `<BBBB16s12x`, i.e. four unsigned bytes
followed by a 16-byte zero string and 12 zero pad bytes. -/
def encodeHandshake : List Nat :=
  packU8 1 ++ packU8 0 ++ packU8 1 ++ packU8 1 ++ List.replicate 16 0 ++ List.replicate 12 0

/-- The loop-scoped session state of `main`: `conn` (is a peer socket
present), `mapped_buf` (`some n` = a live mmap of `n` bytes, `none` = no
mapping), `current_fd` (the retained descriptor number), and the last
accepted geometry `width`, `height`, `stride` (i32 values from the wire). -/
structure ViewerState where
  conn : Bool
  mapped_buf : Option Nat
  current_fd : Option Nat
  width : Int
  height : Int
  stride : Int
deriving DecidableEq

/-- Initial state of `main` (`vkcapture-show.py:108-116`). -/
def initState : ViewerState :=
  { conn := false, mapped_buf := none, current_fd := none, width := 0, height := 0, stride := 0 }

/-- Externally observable resource operations, in program order. -/
inductive Effect where
  | closeConn : Effect
  | unmapBuf : Effect
  | closeFd : Nat → Effect
  | sendHandshake : List Nat → Effect
  | mapBuf : Nat → Nat → Effect
  | dmaSync : Option Nat → Nat → Effect
  | readMem : Nat → Effect
  | closeServer : Effect
deriving DecidableEq

/-- Python truthiness of an optional file descriptor: `if fd:` is false both
for `None` and for descriptor number 0. -/
def pyTruthyFd : Option Nat → Bool
  | none => false
  | some n => n != 0

/-- Python truthiness of an optional mmap object: `if mapped_buf:` uses the
mapping's length, so `None` and a zero-length mapping are both falsy.
(CPython's mmap never returns a zero-length mapping: a zero size raises an
uncaught ValueError, so reachable live mappings always have positive size.) -/
def pyTruthyBuf : Option Nat → Bool
  | none => false
  | some n => n != 0

/-- Embedding of `cleanup_views` (`vkcapture-show.py:41-73`) restricted to
its observable half: the numpy-view drops and the gc pass have no external
effect; then `mapped_buf.close()` runs if the mapping is truthy, and
`os.close(fd)` runs afterwards if the descriptor is truthy.  The caller
resets its state variables to the returned `None`s. -/
def cleanup_views (mapped_buf fd : Option Nat) : List Effect :=
  (if pyTruthyBuf mapped_buf then [Effect.unmapBuf] else [])
    ++ (if pyTruthyFd fd then [Effect.closeFd (fd.getD 0)] else [])

/-- Outcome of one `conn.recvmsg` call (`vkcapture-show.py:151`): either a
datagram with its ancillary descriptor list, or a transport fault
(ConnectionResetError / BrokenPipeError).  `mapRes` is the environment's
answer to the lseek-and-mmap attempt on the first attached descriptor when
one is made: `some n` is a successful mapping of `n` bytes, `none` is an
OSError from the mmap call. -/
inductive RecvRes where
  | bytes : List Nat → List Nat → Option Nat → RecvRes
  | connError : RecvRes

/-- Embedding of the accept branch (`vkcapture-show.py:127-146`): any prior
peer is closed and its mapping and descriptor cleaned up, `width`/`height`
are zeroed (stride is not), the new peer is installed and the handshake
sent.  `hsOk = false` models a BrokenPipeError from `conn.send`, after
which `conn` is reset to `None`. -/
def handleAccept (s : ViewerState) (hsOk : Bool) : ViewerState × List Effect :=
  let effs := if s.conn then Effect.closeConn :: cleanup_views s.mapped_buf s.current_fd else []
  let s1 := if s.conn then
      { s with mapped_buf := none, current_fd := none, width := 0, height := 0 }
    else s
  ({ s1 with conn := hsOk }, effs ++ [Effect.sendHandshake encodeHandshake])

/-- Embedding of the data branch (`vkcapture-show.py:148-197`).  An empty
read is an orderly disconnect (peer closed, mapping and descriptor cleaned,
width/height zeroed).  A non-empty datagram is decoded; unrecognized
messages and surface messages with no attached descriptor change nothing.
A surface message with attached descriptors is a resize: the old descriptor
is closed first (when truthy), then the old mapping is released, then the
first new descriptor is mapped; on mmap failure the new descriptor is
closed (when nonzero) and no mapping is retained.  A transport fault closes
the peer and cleans up, leaving geometry untouched. -/
def handleRecv (s : ViewerState) (r : RecvRes) : ViewerState × List Effect :=
  match r with
  | RecvRes.connError =>
      ({ s with conn := false, mapped_buf := none, current_fd := none },
        Effect.closeConn :: cleanup_views s.mapped_buf s.current_fd)
  | RecvRes.bytes data fds mapRes =>
      if data = [] then
        ({ s with
            conn := false
            mapped_buf := none
            current_fd := none
            width := 0
            height := 0 },
          Effect.closeConn :: cleanup_views s.mapped_buf s.current_fd)
      else
        match decodeSurfaceMessage data with
        | none => (s, [])
        | some d =>
            match fds with
            | [] => (s, [])
            | f0 :: _ =>
                let closeOld : List Effect :=
                  if pyTruthyFd s.current_fd then [Effect.closeFd (s.current_fd.getD 0)]
                  else []
                let unmapOld : List Effect := cleanup_views s.mapped_buf none
                match mapRes with
                | some n =>
                    ({ s with
                        mapped_buf := some n
                        current_fd := some f0
                        width := d.width
                        height := d.height
                        stride := d.planeA.headD 0 },
                      closeOld ++ unmapOld ++ [Effect.mapBuf f0 n])
                | none =>
                    ({ s with mapped_buf := none, current_fd := none },
                      closeOld ++ unmapOld
                        ++ (if f0 != 0 then [Effect.closeFd f0] else []))

/-- Embedding of the render tick (`vkcapture-show.py:200-240`): guarded by
`conn and mapped_buf and width > 0 and height > 0`; inside, the DMA sync
bracket surrounds a read of the first `stride * height` bytes that is
performed only when the mapping's actual length is at least that large. -/
def renderTick (s : ViewerState) : List Effect :=
  if s.conn = true ∧ pyTruthyBuf s.mapped_buf = true ∧ 0 < s.width ∧ 0 < s.height then
    let n : Nat := s.mapped_buf.getD 0
    let expected : Int := s.stride * s.height
    [Effect.dmaSync s.current_fd (DMA_BUF_SYNC_START ||| DMA_BUF_SYNC_READ)]
      ++ (if expected ≤ (n : Int) then [Effect.readMem expected.toNat] else [])
      ++ [Effect.dmaSync s.current_fd (DMA_BUF_SYNC_END ||| DMA_BUF_SYNC_READ)]
  else []

/-- One readiness or loop event fed to the main loop: an accept on the
listening socket, a receive outcome on the peer socket, a render tick, or
the `q` key that exits the loop. -/
inductive Event where
  | accept : Bool → Event
  | recv : RecvRes → Event
  | tick : Event
  | keyQ : Event

/-- One dispatch of the main loop: the third component is true when the
loop exits (the `q` key).  A receive event with no peer present cannot
occur (the peer socket is only polled when present) and is a no-op. -/
def loopStep (s : ViewerState) (e : Event) : ViewerState × List Effect × Bool :=
  match e with
  | Event.accept hsOk =>
      let p := handleAccept s hsOk
      (p.1, p.2, false)
  | Event.recv r =>
      if s.conn then
        let p := handleRecv s r
        (p.1, p.2, false)
      else (s, [], false)
  | Event.tick => (s, renderTick s, false)
  | Event.keyQ => (s, [], true)

/-- Run the main loop over an event list, concatenating emitted effects and
stopping at the first exit. -/
def runLoop : ViewerState → List Event → ViewerState × List Effect
  | s, [] => (s, [])
  | s, e :: es =>
      let p := loopStep s e
      if p.2.2 then (p.1, p.2.1)
      else
        let q := runLoop p.1 es
        (q.1, p.2.1 ++ q.2)

/-- Embedding of the `finally` block (`vkcapture-show.py:249-253`): the
unconditional shutdown cleanup — views dropped, mapping released, descriptor
closed, peer closed, listener closed. -/
def shutdownEffects (s : ViewerState) : List Effect :=
  cleanup_views s.mapped_buf s.current_fd
    ++ (if s.conn then [Effect.closeConn] else []) ++ [Effect.closeServer]

/-- Full observable trace of a run that entered the loop: the loop's
effects followed by the unconditional shutdown cleanup. -/
def runFrom (s : ViewerState) (evs : List Event) : List Effect :=
  (runLoop s evs).2 ++ shutdownEffects (runLoop s evs).1

/-- Embedding of `main` after argument parsing (`vkcapture-show.py:91-253`):
a bind failure prints and returns before the loop, emitting no protocol
effects; otherwise the loop runs from the initial state and the shutdown
cleanup follows. -/
def mainRun (bindOk : Bool) (evs : List Event) : List Effect :=
  if bindOk then runFrom initState evs else []

/-- True on the effects that read mapped memory. -/
def isReadMem : Effect → Bool
  | Effect.readMem _ => true
  | _ => false

/-- True on the effects that map or close the given descriptor number. -/
def touchesFd (f : Nat) : Effect → Bool
  | Effect.closeFd g => g == f
  | Effect.mapBuf g _ => g == f
  | _ => false

/-- Does the effect list contain a mapping release? -/
def hasUnmap (es : List Effect) : Bool :=
  es.any fun e => e == Effect.unmapBuf

/-- True when no mapping release occurs after any descriptor close, i.e.
within this effect list every unmap precedes every fd close. -/
def unmapPrecedesClose : List Effect → Bool
  | [] => true
  | Effect.closeFd _ :: es => !hasUnmap es && unmapPrecedesClose es
  | _ :: es => unmapPrecedesClose es

/-- Scan an effect list counting live mappings, starting from `l` live:
fails (`none`) if a mapping is created while one is live or released while
none is. -/
def scanLive : Nat → List Effect → Option Nat
  | l, [] => some l
  | l, Effect.mapBuf _ _ :: es => if l = 0 then scanLive 1 es else none
  | l, Effect.unmapBuf :: es => if l = 1 then scanLive 0 es else none
  | l, _ :: es => scanLive l es

/-- Number of live mappings recorded in a state (0 or 1). -/
def liveOf (s : ViewerState) : Nat :=
  if s.mapped_buf.isSome then 1 else 0

/-- A reachable state never holds a zero-length mapping (CPython's mmap
cannot produce one; a zero size raises an uncaught ValueError instead). -/
def BufOK (s : ViewerState) : Prop := s.mapped_buf ≠ some 0

/-- Environment wellformedness: a successful mmap result is never empty,
matching CPython where `mmap.mmap(fd, 0)` either maps a whole nonempty file
or raises. -/
def evOK : Event → Bool
  | Event.recv (RecvRes.bytes _ _ (some n)) => 0 < n
  | _ => true

/-- The first attached descriptor of a receive event, if any: the only
descriptor number the loop can ever map, retain or close from that event. -/
def evFdHead : Event → Option Nat
  | Event.recv (RecvRes.bytes _ (g :: _) _) => some g
  | _ => none

/-- A concrete valid 128-byte surface message: type 11, width 2, height 3,
planeA[0] (row stride) 8, all other fields zero. -/
def msgEx : List Nat :=
  [TYPE_TEXTURE_DATA, 0] ++ [2, 0, 0, 0] ++ [3, 0, 0, 0] ++ [0, 0, 0, 0]
    ++ [8, 0, 0, 0] ++ List.replicate 110 0

/-- The descriptor `msgEx` decodes to. -/
def descEx : SurfaceDescriptor :=
  { msgType := 11, version := 0, width := 2, height := 3, pixelFormat := 0
    planeA := [8, 0, 0, 0], planeB := [0, 0, 0, 0], modifier := 0
    drmFormat := 0, planeCount := 0, flags := 0 }

/-- A concrete connected state with a live 64-byte mapping on descriptor 5
and geometry 2x3 with stride 8. -/
def stateMapped : ViewerState :=
  { conn := true, mapped_buf := some 64, current_fd := some 5,
    width := 2, height := 3, stride := 8 }

/-- The same session but with descriptor number 0 retained: reachable when
the producer's descriptor arrived while fd 0 was free in this process. -/
def stateFd0 : ViewerState :=
  { conn := true, mapped_buf := some 64, current_fd := some 0,
    width := 2, height := 3, stride := 8 }

/-- A connected mapped session whose stored geometry (9x9, stride 99)
differs from `msgEx`'s wire geometry. -/
def stateOther : ViewerState :=
  { conn := true, mapped_buf := some 64, current_fd := some 5,
    width := 9, height := 9, stride := 99 }

/-- A connected session whose live mapping (10 bytes) is smaller than the
declared `stride * height` (24 bytes): a shrink race in flight. -/
def stateShrink : ViewerState :=
  { conn := true, mapped_buf := some 10, current_fd := some 5,
    width := 2, height := 3, stride := 8 }

/-- A concrete event run: connect, map, render, resize onto a second
descriptor, orderly disconnect, quit. -/
def evsEx : List Event :=
  [Event.accept true, Event.recv (RecvRes.bytes msgEx [7] (some 64)), Event.tick,
    Event.recv (RecvRes.bytes msgEx [9] (some 64)),
    Event.recv (RecvRes.bytes [] [] none), Event.keyQ]

theorem decode_ne_nil {data : List Nat} {d : SurfaceDescriptor}
    (h : decodeSurfaceMessage data = some d) : data ≠ [] := by
  intro he
  subst he
  simp [decodeSurfaceMessage] at h

/-- C5: the handshake encoder always produces exactly 32 bytes with the
fixed layout type=1, version=0, capabilityFlagsA=1, capabilityFlagsB=1,
then 16 zero bytes and 12 zero pad bytes; it is a constant with no error
path and no input dependence. -/
theorem C5_handshake_layout :
    encodeHandshake.length = 32 ∧ encodeHandshake.take 4 = [1, 0, 1, 1]
      ∧ encodeHandshake.drop 4 = List.replicate 28 0 := by
  decide

/-- C2: the surface-message decoder accepts an input iff its byte length is
exactly `TEX_SIZE = 128` and its first byte equals `TYPE_TEXTURE_DATA = 11`;
every other non-empty datagram is skipped and the session state (connection,
mapping, geometry, descriptor) is left untouched, with no effects emitted.
(An empty read is not a message: the transport reports it as orderly peer
shutdown before the decoder is consulted.) -/
theorem C2_framing_exactness (data : List Nat) (s : ViewerState) (fds : List Nat)
    (mr : Option Nat) :
    ((decodeSurfaceMessage data).isSome
        ↔ data.length = TEX_SIZE ∧ data.headD 0 = TYPE_TEXTURE_DATA)
    ∧ (data ≠ [] → decodeSurfaceMessage data = none →
        handleRecv s (RecvRes.bytes data fds mr) = (s, [])) := by
  constructor
  · cases data with
    | nil => simp [decodeSurfaceMessage, TEX_SIZE]
    | cons b rest =>
        simp only [decodeSurfaceMessage, List.headD]
        split
        next h =>
          simp only [Option.isSome_some, true_iff]
          exact ⟨h.2, h.1⟩
        next h =>
          constructor
          · intro hc
            simp at hc
          · intro hc
            exact absurd ⟨hc.2, hc.1⟩ h
  · intro hne hnone
    simp [handleRecv, hne, hnone]

/-- C9: a well-framed surface message (128 bytes, first byte 11) that
carries zero attached descriptors is a complete no-op on the session state,
even when its geometry fields differ from the stored ones: no field
changes and no effect is emitted. -/
theorem C9_zero_handle_noop (s : ViewerState) (data : List Nat) (d : SurfaceDescriptor)
    (mr : Option Nat) (h : decodeSurfaceMessage data = some d) :
    handleRecv s (RecvRes.bytes data [] mr) = (s, []) := by
  simp [handleRecv, decode_ne_nil h, h]

/-- C9 witness: the concrete message `msgEx` (geometry 2x3, stride 8) with
no descriptors leaves the differing stored geometry (9x9, stride 99) and
all other state of `stateOther` unchanged. -/
theorem C9_witness : handleRecv stateOther (RecvRes.bytes msgEx [] (some 99))
    = (stateOther, []) :=
  C9_zero_handle_noop stateOther msgEx descEx (some 99) (by decide)

/-- C2 witness: a 3-byte datagram is rejected by the framing check and its
receipt mutates nothing. -/
theorem C2_witness : handleRecv initState (RecvRes.bytes [1, 2, 3] [9] none)
    = (initState, []) :=
  (C2_framing_exactness [1, 2, 3] initState [9] none).2 (by decide) (by decide)

/-- C4: on a render tick whose live mapping is smaller than the
`stride * height` computed from the last accepted descriptor, the read is
skipped: no `readMem` access is performed at all, hence none beyond the
mapping's actual length. -/
theorem C4_shrink_race_no_read (s : ViewerState) (n : Nat)
    (hm : s.mapped_buf = some n) (hlt : (n : Int) < s.stride * s.height) :
    (renderTick s).any isReadMem = false := by
  unfold renderTick
  split
  · rw [hm]
    simp only [Option.getD_some]
    rw [if_neg (not_le.mpr hlt)]
    simp [isReadMem]
  · simp

/-- C4 witness: with a 10-byte mapping and declared geometry stride 8,
height 3 (24 bytes), the tick performs only the sync bracket and no read. -/
theorem C4_witness : (renderTick stateShrink).any isReadMem = false :=
  C4_shrink_race_no_read stateShrink 10 (by decide) (by decide)

/-- C7: a well-framed surface message with width `W`, height `H` and first
plane-array-A element `S`, carrying at least one descriptor whose queried
size `n` satisfies `S*H ≤ n`, yields after a successful map a state whose
view (the live mapping) has byte length `n ≥ S*H` and whose row stride for
interpretation is `S`, taken from the wire, while the length comes from the
descriptor query, not the wire. -/
theorem C7_geometry_roundtrip (s : ViewerState) (data : List Nat) (d : SurfaceDescriptor)
    (f0 : Nat) (rest : List Nat) (n : Nat) (W H S : Int)
    (hd : decodeSurfaceMessage data = some d)
    (hW : d.width = W) (hH : d.height = H) (hS : d.planeA.headD 0 = S)
    (hn : S * H ≤ (n : Int)) :
    (handleRecv s (RecvRes.bytes data (f0 :: rest) (some n))).1.mapped_buf = some n
    ∧ (handleRecv s (RecvRes.bytes data (f0 :: rest) (some n))).1.stride = S
    ∧ (handleRecv s (RecvRes.bytes data (f0 :: rest) (some n))).1.width = W
    ∧ (handleRecv s (RecvRes.bytes data (f0 :: rest) (some n))).1.height = H
    ∧ S * H ≤ (n : Int) := by
  have hS' : d.planeA.head?.getD 0 = S := by
    rw [← List.headD_eq_head?]
    exact hS
  simp [handleRecv, decode_ne_nil hd, hd, hW, hH, hS', hn]

/-- C7 witness: `msgEx` (width 2, height 3, stride 8) with descriptor 7 of
queried size 64 maps to a 64-byte view (at least 24 = 8*3) with stride 8. -/
theorem C7_witness :
    (handleRecv stateOther (RecvRes.bytes msgEx (7 :: []) (some 64))).1.mapped_buf = some 64
    ∧ (handleRecv stateOther (RecvRes.bytes msgEx (7 :: []) (some 64))).1.stride = 8
    ∧ (handleRecv stateOther (RecvRes.bytes msgEx (7 :: []) (some 64))).1.width = 2
    ∧ (handleRecv stateOther (RecvRes.bytes msgEx (7 :: []) (some 64))).1.height = 3
    ∧ (8 : Int) * 3 ≤ ((64 : Nat) : Int) :=
  C7_geometry_roundtrip stateOther msgEx descEx 7 [] 64 2 3 8
    (by decide) (by decide) (by decide) (by decide) (by decide)

/-- C8: transport-level faults on the peer connection (end-of-stream read,
connection reset, broken pipe — including a broken pipe during the
handshake send) are recovered by returning to the Idle state (peer closed,
mapping released, descriptor dropped) without exiting the loop, so the
accept wait resumes; only a bind failure is fatal, and it prevents the
loop (and every protocol effect) from running at all. -/
theorem C8_transport_faults_recovered :
    (∀ s : ViewerState, s.conn = true →
        (loopStep s (Event.recv RecvRes.connError)).1.conn = false
        ∧ (loopStep s (Event.recv RecvRes.connError)).1.mapped_buf = none
        ∧ (loopStep s (Event.recv RecvRes.connError)).1.current_fd = none
        ∧ (loopStep s (Event.recv RecvRes.connError)).2.2 = false)
    ∧ (∀ (s : ViewerState) (fds : List Nat) (mr : Option Nat), s.conn = true →
        (loopStep s (Event.recv (RecvRes.bytes [] fds mr))).1.conn = false
        ∧ (loopStep s (Event.recv (RecvRes.bytes [] fds mr))).1.mapped_buf = none
        ∧ (loopStep s (Event.recv (RecvRes.bytes [] fds mr))).1.current_fd = none
        ∧ (loopStep s (Event.recv (RecvRes.bytes [] fds mr))).2.2 = false)
    ∧ (∀ s : ViewerState,
        (loopStep s (Event.accept false)).1.conn = false
        ∧ (loopStep s (Event.accept false)).2.2 = false
        ∧ (s.conn = true → (loopStep s (Event.accept false)).1.mapped_buf = none))
    ∧ (∀ evs : List Event, mainRun false evs = []) := by
  refine ⟨?_, ?_, ?_, ?_⟩
  · intro s hc
    simp [loopStep, handleRecv, hc]
  · intro s fds mr hc
    simp [loopStep, handleRecv, hc]
  · intro s
    by_cases hc : s.conn <;> simp [loopStep, handleAccept, hc]
  · intro evs
    simp [mainRun]

/-- C8 witness: from the concrete mapped session, a reset returns to Idle
without exiting, and with a failed bind no effect is ever emitted. -/
theorem C8_witness :
    ((loopStep stateMapped (Event.recv RecvRes.connError)).1.conn = false
      ∧ (loopStep stateMapped (Event.recv RecvRes.connError)).1.mapped_buf = none
      ∧ (loopStep stateMapped (Event.recv RecvRes.connError)).1.current_fd = none
      ∧ (loopStep stateMapped (Event.recv RecvRes.connError)).2.2 = false)
    ∧ mainRun false evsEx = [] :=
  ⟨C8_transport_faults_recovered.1 stateMapped (by decide),
    C8_transport_faults_recovered.2.2.2 evsEx⟩

/-- C6 counterexample: in the reachable session `stateFd0` the retained
descriptor number is 0, so the accept-path teardown's truthiness test
`if fd:` skips `os.close`: the whole accept step emits no close of
descriptor 0 at all, hence the old backing handle is not closed before the
handshake is sent. -/
theorem C6_counterexample :
    stateFd0.conn = true ∧ stateFd0.current_fd = some 0
      ∧ (handleAccept stateFd0 true).2
          = [Effect.closeConn, Effect.unmapBuf, Effect.sendHandshake encodeHandshake]
      ∧ ((handleAccept stateFd0 true).2.any fun e => touchesFd 0 e) = false := by
  decide

/-- C6 amended: on an accept with a prior peer connected, before the
handshake is sent the old peer has been closed, the old mapping (if any)
has been released, and the old backing descriptor has been closed provided
its number is nonzero (the teardown's truthiness test skips descriptor 0);
the post-state retains neither mapping nor descriptor. -/
theorem C6_reconnect_supersedes_amended (s : ViewerState) (hsOk : Bool)
    (hc : s.conn = true) :
    ∃ pre, (handleAccept s hsOk).2 = pre ++ [Effect.sendHandshake encodeHandshake]
      ∧ Effect.closeConn ∈ pre
      ∧ (pyTruthyBuf s.mapped_buf = true → Effect.unmapBuf ∈ pre)
      ∧ (∀ g : Nat, s.current_fd = some g → g ≠ 0 → Effect.closeFd g ∈ pre)
      ∧ (∀ m : List Nat, Effect.sendHandshake m ∉ pre)
      ∧ (handleAccept s hsOk).1.mapped_buf = none
      ∧ (handleAccept s hsOk).1.current_fd = none := by
  refine ⟨Effect.closeConn :: cleanup_views s.mapped_buf s.current_fd, ?_, ?_, ?_, ?_, ?_, ?_, ?_⟩
  · simp [handleAccept, hc]
  · simp
  · intro hb
    simp [cleanup_views, hb]
  · intro g hg hg0
    have ht : pyTruthyFd (some g) = true := by
      simp [pyTruthyFd, hg0]
    simp [cleanup_views, hg, ht]
  · intro m
    simp only [List.mem_cons]
    rintro (h | h)
    · exact Effect.noConfusion h
    · revert h
      unfold cleanup_views
      split <;> split <;> simp
  · simp [handleAccept, hc]
  · simp [handleAccept, hc]

/-- C6 witness: from the concrete mapped session with descriptor 5, the
accept teardown closes the peer, releases the mapping and closes descriptor
5, all strictly before the handshake send. -/
theorem C6_witness :
    ∃ pre, (handleAccept stateMapped true).2 = pre ++ [Effect.sendHandshake encodeHandshake]
      ∧ Effect.closeConn ∈ pre
      ∧ (pyTruthyBuf stateMapped.mapped_buf = true → Effect.unmapBuf ∈ pre)
      ∧ (∀ g : Nat, stateMapped.current_fd = some g → g ≠ 0 → Effect.closeFd g ∈ pre)
      ∧ (∀ m : List Nat, Effect.sendHandshake m ∉ pre)
      ∧ (handleAccept stateMapped true).1.mapped_buf = none
      ∧ (handleAccept stateMapped true).1.current_fd = none :=
  C6_reconnect_supersedes_amended stateMapped true (by decide)

theorem upc_cleanup (mb fd : Option Nat) :
    unmapPrecedesClose (cleanup_views mb fd) = true := by
  unfold cleanup_views
  split <;> split <;> simp [unmapPrecedesClose, hasUnmap]

/-- C1 counterexample: from the concrete live mapped session `stateMapped`,
the resize teardown (a new 128-byte surface message with an attached
descriptor) emits `closeFd 5` before `unmapBuf`: the close-before-unmap
order does occur on this teardown path. -/
theorem C1_counterexample :
    (handleRecv stateMapped (RecvRes.bytes msgEx [7] (some 64))).2
        = [Effect.closeFd 5, Effect.unmapBuf, Effect.mapBuf 7 64]
    ∧ unmapPrecedesClose ((handleRecv stateMapped (RecvRes.bytes msgEx [7] (some 64))).2)
        = false := by
  decide

/-- C1 amended: on the disconnect teardown paths (transport fault and
end-of-stream) and on process shutdown, the mapping release precedes the
descriptor close; on the resize path the order is reversed — the old
descriptor is closed first and only then is the old mapping released. -/
theorem C1_unmap_before_close_amended :
    (∀ s : ViewerState, unmapPrecedesClose (handleRecv s RecvRes.connError).2 = true)
    ∧ (∀ (s : ViewerState) (fds : List Nat) (mr : Option Nat),
        unmapPrecedesClose (handleRecv s (RecvRes.bytes [] fds mr)).2 = true)
    ∧ (∀ s : ViewerState, unmapPrecedesClose (shutdownEffects s) = true)
    ∧ (∀ (s : ViewerState) (data : List Nat) (d : SurfaceDescriptor) (f0 g : Nat)
        (rest : List Nat) (mr : Option Nat),
        decodeSurfaceMessage data = some d → s.current_fd = some g → g ≠ 0 →
        pyTruthyBuf s.mapped_buf = true →
        ∃ tail, (handleRecv s (RecvRes.bytes data (f0 :: rest) mr)).2
          = Effect.closeFd g :: Effect.unmapBuf :: tail) := by
  refine ⟨?_, ?_, ?_, ?_⟩
  · intro s
    simpa [handleRecv, unmapPrecedesClose] using upc_cleanup s.mapped_buf s.current_fd
  · intro s fds mr
    simpa [handleRecv, unmapPrecedesClose] using upc_cleanup s.mapped_buf s.current_fd
  · intro s
    unfold shutdownEffects cleanup_views
    split <;> split <;> split <;> simp [unmapPrecedesClose, hasUnmap]
  · intro s data d f0 g rest mr hd hg hg0 hb
    have ht : pyTruthyFd (some g) = true := by
      simp [pyTruthyFd, hg0]
    have hnone : pyTruthyFd none = false := rfl
    cases mr with
    | some n =>
        refine ⟨[Effect.mapBuf f0 n], ?_⟩
        simp [handleRecv, decode_ne_nil hd, hd, hg, ht, hnone, cleanup_views, hb]
    | none =>
        refine ⟨if f0 = 0 then [] else [Effect.closeFd f0], ?_⟩
        simp [handleRecv, decode_ne_nil hd, hd, hg, ht, hnone, cleanup_views, hb]

/-- C1 witness: the transport-fault teardown of the concrete mapped session
releases the mapping before closing the descriptor, and the resize teardown
of the same session closes descriptor 5 before releasing the mapping. -/
theorem C1_witness :
    unmapPrecedesClose (handleRecv stateMapped RecvRes.connError).2 = true
    ∧ ∃ tail, (handleRecv stateMapped (RecvRes.bytes msgEx (7 :: []) (some 64))).2
        = Effect.closeFd 5 :: Effect.unmapBuf :: tail :=
  ⟨C1_unmap_before_close_amended.1 stateMapped,
    C1_unmap_before_close_amended.2.2.2 stateMapped msgEx descEx 7 5 [] (some 64)
      (by decide) (by decide) (by decide) (by decide)⟩

theorem scanLive_append (xs ys : List Effect) :
    ∀ l, scanLive l (xs ++ ys) = Option.bind (scanLive l xs) fun m => scanLive m ys := by
  induction xs with
  | nil => intro l; simp [scanLive]
  | cons e es ih =>
      intro l
      cases e <;> simp only [List.cons_append, scanLive] <;>
        first
          | apply ih
          | (split <;> simp [ih])

theorem scanLive_cleanup (mb fd : Option Nat) (h : mb ≠ some 0) :
    scanLive (if mb.isSome then 1 else 0) (cleanup_views mb fd) = some 0 := by
  cases mb with
  | none =>
      cases fd with
      | none => simp [cleanup_views, pyTruthyBuf, pyTruthyFd, scanLive]
      | some g =>
          by_cases hg : g = 0 <;>
            simp [cleanup_views, pyTruthyBuf, pyTruthyFd, hg, scanLive]
  | some n =>
      have hn : n ≠ 0 := fun e => h (by rw [e])
      cases fd with
      | none => simp [cleanup_views, pyTruthyBuf, pyTruthyFd, hn, scanLive]
      | some g =>
          by_cases hg : g = 0 <;>
            simp [cleanup_views, pyTruthyBuf, pyTruthyFd, hn, hg, scanLive]

theorem scanLive_render (s : ViewerState) (l : Nat) :
    scanLive l (renderTick s) = some l := by
  unfold renderTick
  split
  · dsimp only
    split <;> simp [scanLive]
  · simp [scanLive]

theorem scanLive_loopStep (s : ViewerState) (e : Event) (hb : BufOK s)
    (he : evOK e = true) :
    scanLive (liveOf s) (loopStep s e).2.1 = some (liveOf (loopStep s e).1)
    ∧ BufOK (loopStep s e).1 := by
  have hcl := scanLive_cleanup s.mapped_buf s.current_fd hb
  cases e with
  | accept hsOk =>
      by_cases hc : s.conn
      · constructor
        · simp [loopStep, handleAccept, hc, liveOf, scanLive, scanLive_append, hcl]
        · simp [loopStep, handleAccept, hc, BufOK]
      · constructor
        · simp [loopStep, handleAccept, hc, liveOf, scanLive]
        · simpa [loopStep, handleAccept, hc, BufOK] using hb
  | tick =>
      exact ⟨by simp [loopStep, scanLive_render], hb⟩
  | keyQ =>
      exact ⟨by simp [loopStep, scanLive], hb⟩
  | recv r =>
      by_cases hc : s.conn
      case neg => exact ⟨by simp [loopStep, hc, scanLive], by simpa [loopStep, hc] using hb⟩
      case pos =>
      cases r with
      | connError =>
          constructor
          · simp [loopStep, handleRecv, hc, liveOf, scanLive, hcl]
          · simp [loopStep, handleRecv, hc, BufOK]
      | bytes data fds mapRes =>
          by_cases hdata : data = []
          · constructor
            · simp [loopStep, handleRecv, hc, hdata, liveOf, scanLive, hcl]
            · simp [loopStep, handleRecv, hc, hdata, BufOK]
          · cases hdec : decodeSurfaceMessage data with
            | none =>
                exact ⟨by simp [loopStep, handleRecv, hc, hdata, hdec, scanLive],
                  by simpa [loopStep, handleRecv, hc, hdata, hdec] using hb⟩
            | some d =>
                cases fds with
                | nil =>
                    exact ⟨by simp [loopStep, handleRecv, hc, hdata, hdec, scanLive],
                      by simpa [loopStep, handleRecv, hc, hdata, hdec] using hb⟩
                | cons f0 rest =>
                    have hclnone := scanLive_cleanup s.mapped_buf none hb
                    cases mapRes with
                    | some n =>
                        have hn : 0 < n := by simpa [evOK] using he
                        constructor
                        · by_cases hft : pyTruthyFd s.current_fd <;>
                            simp [loopStep, handleRecv, hc, hdata, hdec, hft, liveOf,
                              scanLive, scanLive_append, hclnone]
                        · simp [loopStep, handleRecv, hc, hdata, hdec, BufOK]
                          omega
                    | none =>
                        constructor
                        · by_cases hft : pyTruthyFd s.current_fd <;>
                            by_cases hf0 : f0 = 0 <;>
                            simp [loopStep, handleRecv, hc, hdata, hdec, hft, hf0, liveOf,
                              scanLive, scanLive_append, hclnone]
                        · simp [loopStep, handleRecv, hc, hdata, hdec, BufOK]

theorem scanLive_runLoop (evs : List Event) :
    ∀ s : ViewerState, BufOK s → evs.all evOK = true →
      scanLive (liveOf s) (runLoop s evs).2 = some (liveOf (runLoop s evs).1)
      ∧ BufOK (runLoop s evs).1 := by
  induction evs with
  | nil => intro s hb _; simpa [runLoop, scanLive] using hb
  | cons e es ih =>
      intro s hb hall
      have he : evOK e = true := by
        have := List.all_eq_true.mp hall e (List.mem_cons_self e es)
        simpa using this
      have hes : es.all evOK = true := by
        refine List.all_eq_true.mpr fun x hx => ?_
        exact List.all_eq_true.mp hall x (List.mem_cons_of_mem e hx)
      have hstep := scanLive_loopStep s e hb he
      by_cases hex : (loopStep s e).2.2 = true
      · constructor
        · simpa [runLoop, hex] using hstep.1
        · simpa [runLoop, hex] using hstep.2
      · have hrec := ih (loopStep s e).1 hstep.2 hes
        constructor
        · simp [runLoop, hex, scanLive_append, hstep.1, hrec.1]
        · simpa [runLoop, hex] using hrec.2

theorem scanLive_shutdown (s : ViewerState) (hb : BufOK s) :
    scanLive (liveOf s) (shutdownEffects s) = some 0 := by
  have hcl := scanLive_cleanup s.mapped_buf s.current_fd hb
  by_cases hc : s.conn <;>
    simp [shutdownEffects, scanLive_append, liveOf, hcl, hc, scanLive]

/-- C3: over any event sequence (with the CPython-imposed side condition
that a successful mmap result is nonempty), scanning the full observable
trace of the program counts at most one live mapping at every point: a map
effect occurs only when no mapping is live, a release only when one is, and
the trace ends with none live.  In particular two live mappings never
coexist and every new map is preceded by the release of its predecessor. -/
theorem C3_single_live_mapping (evs : List Event) (h : evs.all evOK = true) :
    scanLive 0 (mainRun true evs) = some 0 := by
  have h0 : BufOK initState := by simp [BufOK, initState]
  have hrl := scanLive_runLoop evs initState h0 h
  have hsd := scanLive_shutdown (runLoop initState evs).1 hrl.2
  have hlive : liveOf initState = 0 := by simp [liveOf, initState]
  have h1 : scanLive 0 (runLoop initState evs).2
      = some (liveOf (runLoop initState evs).1) := by
    rw [← hlive]
    exact hrl.1
  simp [mainRun, runFrom, scanLive_append, h1, hsd]

/-- C3 witness: the concrete run `evsEx` (connect, map, render, resize,
disconnect, quit) scans cleanly with at most one live mapping throughout. -/
theorem C3_witness : scanLive 0 (mainRun true evsEx) = some 0 :=
  C3_single_live_mapping evsEx (by decide)

theorem touches_render (f : Nat) (s : ViewerState) :
    ((renderTick s).all fun x => !touchesFd f x) = true := by
  unfold renderTick
  split
  · dsimp only
    split <;> simp [touchesFd]
  · simp

theorem touches_cleanup (f : Nat) (mb fd : Option Nat) (h : fd ≠ some f) :
    ∀ x ∈ cleanup_views mb fd, touchesFd f x = false := by
  intro x hx
  unfold cleanup_views at hx
  rcases List.mem_append.mp hx with h1 | h1
  · split at h1
    · simp only [List.mem_singleton] at h1
      subst h1
      rfl
    · simp at h1
  · split at h1
    · rename_i ht
      simp only [List.mem_singleton] at h1
      subst h1
      cases fd with
      | none => simp [pyTruthyFd] at ht
      | some g =>
          have hg : g ≠ f := fun e => h (by rw [e])
          simp [touchesFd, hg]
    · simp at h1

theorem touches_shutdown (f : Nat) (s : ViewerState) (hs : s.current_fd ≠ some f) :
    ((shutdownEffects s).all fun x => !touchesFd f x) = true := by
  have hcl := touches_cleanup f s.mapped_buf s.current_fd hs
  by_cases hc : s.conn <;> simp [shutdownEffects, hc, touchesFd] <;> exact hcl

theorem touches_loopStep (f : Nat) (s : ViewerState) (e : Event)
    (hs : s.current_fd ≠ some f) (he : evFdHead e ≠ some f) :
    ((loopStep s e).2.1.all fun x => !touchesFd f x) = true
    ∧ (loopStep s e).1.current_fd ≠ some f := by
  have hcl := touches_cleanup f s.mapped_buf s.current_fd hs
  cases e with
  | accept hsOk =>
      by_cases hc : s.conn
      · refine ⟨?_, by simp [loopStep, handleAccept, hc]⟩
        simp [loopStep, handleAccept, hc, touchesFd]
        exact hcl
      · exact ⟨by simp [loopStep, handleAccept, hc, touchesFd],
          by simpa [loopStep, handleAccept, hc] using hs⟩
  | tick => exact ⟨by simp [loopStep, touches_render], by simpa [loopStep] using hs⟩
  | keyQ => exact ⟨by simp [loopStep], by simpa [loopStep] using hs⟩
  | recv r =>
      by_cases hc : s.conn
      case neg => exact ⟨by simp [loopStep, hc], by simpa [loopStep, hc] using hs⟩
      case pos =>
      cases r with
      | connError =>
          refine ⟨?_, by simp [loopStep, handleRecv, hc]⟩
          simp [loopStep, handleRecv, hc, touchesFd]
          exact hcl
      | bytes data fds mapRes =>
          by_cases hdata : data = []
          · refine ⟨?_, by simp [loopStep, handleRecv, hc, hdata]⟩
            simp [loopStep, handleRecv, hc, hdata, touchesFd]
            exact hcl
          · cases hdec : decodeSurfaceMessage data with
            | none =>
                exact ⟨by simp [loopStep, handleRecv, hc, hdata, hdec],
                  by simpa [loopStep, handleRecv, hc, hdata, hdec] using hs⟩
            | some d =>
                cases fds with
                | nil =>
                    exact ⟨by simp [loopStep, handleRecv, hc, hdata, hdec],
                      by simpa [loopStep, handleRecv, hc, hdata, hdec] using hs⟩
                | cons f0 rest =>
                    have hf0 : f0 ≠ f := by
                      intro e0
                      exact he (by simp [evFdHead, e0])
                    have hclnone := touches_cleanup f s.mapped_buf none (by simp)
                    cases hfd : s.current_fd with
                    | none =>
                        cases mapRes with
                        | some n =>
                            refine ⟨?_, by simp [loopStep, handleRecv, hc, hdata, hdec, hf0]⟩
                            simp [loopStep, handleRecv, hc, hdata, hdec, hfd,
                              pyTruthyFd, touchesFd, hf0]
                            exact hclnone
                        | none =>
                            refine ⟨?_, by simp [loopStep, handleRecv, hc, hdata, hdec]⟩
                            by_cases hz : f0 = 0 <;>
                              simp [loopStep, handleRecv, hc, hdata, hdec, hfd,
                                pyTruthyFd, touchesFd, hf0, hz] <;>
                              exact hclnone
                    | some g =>
                        have hg : g ≠ f := fun e0 => hs (by rw [hfd, e0])
                        cases mapRes with
                        | some n =>
                            refine ⟨?_, by simp [loopStep, handleRecv, hc, hdata, hdec, hf0]⟩
                            by_cases hz : g = 0 <;>
                              simp [loopStep, handleRecv, hc, hdata, hdec, hfd,
                                pyTruthyFd, touchesFd, hf0, hg, hz] <;>
                              exact hclnone
                        | none =>
                            refine ⟨?_, by simp [loopStep, handleRecv, hc, hdata, hdec]⟩
                            by_cases hz : g = 0 <;> by_cases hz0 : f0 = 0 <;>
                              simp [loopStep, handleRecv, hc, hdata, hdec, hfd,
                                pyTruthyFd, touchesFd, hf0, hg, hz, hz0] <;>
                              exact hclnone

theorem touches_runLoop (f : Nat) (evs : List Event) :
    ∀ s : ViewerState, s.current_fd ≠ some f →
      (evs.all fun e => evFdHead e != some f) = true →
      ((runLoop s evs).2.all fun x => !touchesFd f x) = true
      ∧ (runLoop s evs).1.current_fd ≠ some f := by
  induction evs with
  | nil => intro s hs _; exact ⟨by simp [runLoop], by simpa [runLoop] using hs⟩
  | cons e es ih =>
      intro s hs hall
      have he : evFdHead e ≠ some f := by
        have h1 := List.all_eq_true.mp hall e (List.mem_cons_self e es)
        simpa [bne_iff_ne] using h1
      have hes : (es.all fun x => evFdHead x != some f) = true :=
        List.all_eq_true.mpr fun x hx =>
          List.all_eq_true.mp hall x (List.mem_cons_of_mem e hx)
      have hstep := touches_loopStep f s e hs he
      by_cases hex : (loopStep s e).2.2 = true
      · exact ⟨by simpa [runLoop, hex] using hstep.1,
          by simpa [runLoop, hex] using hstep.2⟩
      · have hrec := ih (loopStep s e).1 hstep.2 hes
        exact ⟨by simp [runLoop, hex, List.all_append, hstep.1, hrec.1],
          by simpa [runLoop, hex] using hrec.2⟩

theorem touches_runFrom (f : Nat) (s : ViewerState) (evs : List Event)
    (hs : s.current_fd ≠ some f)
    (hh : (evs.all fun e => evFdHead e != some f) = true) :
    ((runFrom s evs).all fun x => !touchesFd f x) = true := by
  have hrl := touches_runLoop f evs s hs hh
  have hsd := touches_shutdown f (runLoop s evs).1 hrl.2
  simp [runFrom, List.all_append, hrl.1, hsd]

/-- C10: when a surface message carries more than one attached descriptor,
only the first (`f0`) is mapped and retained as the current descriptor; a
later descriptor `f` (distinct from `f0`, from the previously retained
descriptor, and from the heads of later messages) is neither mapped nor
closed by the resize step, is not stored, and is never mapped or closed by
any subsequent operation of the run, the final shutdown included. -/
theorem C10_extra_handles_leaked (s : ViewerState) (data : List Nat)
    (d : SurfaceDescriptor) (f0 f n : Nat) (rest : List Nat) (evs : List Event)
    (hd : decodeSurfaceMessage data = some d)
    (_hmem : f ∈ rest) (hne : f ≠ f0) (hold : s.current_fd ≠ some f)
    (hfut : (evs.all fun e => evFdHead e != some f) = true) :
    ((handleRecv s (RecvRes.bytes data (f0 :: rest) (some n))).2.all
        fun x => !touchesFd f x) = true
    ∧ (handleRecv s (RecvRes.bytes data (f0 :: rest) (some n))).1.current_fd = some f0
    ∧ ((runFrom (handleRecv s (RecvRes.bytes data (f0 :: rest) (some n))).1 evs).all
        fun x => !touchesFd f x) = true := by
  have hf0 : f0 ≠ f := fun e0 => hne e0.symm
  have hclnone := touches_cleanup f s.mapped_buf none (by simp)
  refine ⟨?_, ?_, ?_⟩
  · cases hfd : s.current_fd with
    | none =>
        simp [handleRecv, decode_ne_nil hd, hd, hfd, pyTruthyFd, touchesFd, hf0]
        exact hclnone
    | some g =>
        have hg : g ≠ f := fun e0 => hold (by rw [hfd, e0])
        by_cases hz : g = 0 <;>
          simp [handleRecv, decode_ne_nil hd, hd, hfd, pyTruthyFd, touchesFd,
            hf0, hg, hz] <;>
          exact hclnone
  · simp [handleRecv, decode_ne_nil hd, hd]
  · refine touches_runFrom f _ evs ?_ hfut
    simp [handleRecv, decode_ne_nil hd, hd, hf0]

/-- C10 witness: `msgEx` arriving at the mapped session with descriptors
`[7, 8]` maps and retains only 7; descriptor 8 is untouched by the step and
by the rest of the concrete run (a render tick, a disconnect, shutdown). -/
theorem C10_witness :
    ((handleRecv stateMapped (RecvRes.bytes msgEx (7 :: [8]) (some 64))).2.all
        fun x => !touchesFd 8 x) = true
    ∧ (handleRecv stateMapped (RecvRes.bytes msgEx (7 :: [8]) (some 64))).1.current_fd
        = some 7
    ∧ ((runFrom (handleRecv stateMapped (RecvRes.bytes msgEx (7 :: [8]) (some 64))).1
          [Event.tick, Event.recv (RecvRes.bytes [] [] none), Event.keyQ]).all
        fun x => !touchesFd 8 x) = true :=
  C10_extra_handles_leaked stateMapped msgEx descEx 7 8 64 [8]
    [Event.tick, Event.recv (RecvRes.bytes [] [] none), Event.keyQ]
    (by decide) (by decide) (by decide) (by decide) (by decide)

end VkCapture
